import Mathlib

/-!
Verification development for the Bible language-learning lesson generator
(`app_improved.py`).  The pipeline is shallowly embedded: the two external
collaborators (the chat-completion endpoint called through `_call_gpt`, and
`json.loads`) are modeled as oracle parameters (`GptOracle`, `JsonLoads`),
everything else (fenced-block extraction, fallback records, voice lookup,
PDF element assembly, orchestration, display formatting) is translated
directly from the source.  Python `str` operations are re-implemented over
`List Char` so that every definition is kernel-computable; JSON values are
modeled as `JVal` (null, string, array, object), matching the data model the
spec ascribes to the records (string keys to strings or lists of records;
numbers and booleans never occur in any record the program builds or reads).
-/

/-- A decoded structured value: the shapes `json.loads` can produce that the
program ever constructs or consumes, plus `null` for Python `None`. -/
inductive JVal where
  | null
  | str (s : String)
  | arr (items : List JVal)
  | obj (fields : List (String × JVal))

/-- A Python dict of string keys, in insertion order.  A dict literal that
repeats a key is modeled by keeping both entries; `dictGet` takes the last
binding, matching the semantics of a Python dict literal. -/
abbrev PyDict := List (String × JVal)

/-- Python `d.get(k, default)`.  Last binding wins, so an assoc list written
down in the order of a Python dict literal looks up exactly like the dict. -/
def dictGet (d : PyDict) (k : String) (default : JVal) : JVal :=
  match d with
  | [] => default
  | (k2, v) :: rest => dictGet rest k (if k2 == k then v else default)

/-- Python `list(d.keys())` (up to literal-duplicate artifacts, see `PyDict`). -/
def dictKeys (d : PyDict) : List String := d.map Prod.fst

/-- The fields of an object value, `[]` for non-objects (used only to state
key-membership properties). -/
def jFields : JVal → PyDict
  | .obj d => d
  | _ => []

/-- The keys of an object value, `[]` for non-objects. -/
def dictKeysOf (v : JVal) : List String := dictKeys (jFields v)

/-- Python `v.get(k, default)` on an arbitrary value: raises `AttributeError`
(modeled as `none`) unless `v` is a dict. -/
def jGet (v : JVal) (k : String) (default : JVal) : Option JVal :=
  match v with
  | .obj d => some (dictGet d k default)
  | _ => none

/-- View a value as a dict, failing (an exception) otherwise. -/
def jAsDict : JVal → Option PyDict
  | .obj d => some d
  | _ => none

/-- Python truthiness of a value. -/
def jTruthy : JVal → Bool
  | .null => false
  | .str s => !(s == "")
  | .arr l => !l.isEmpty
  | .obj l => !l.isEmpty

/-- Python truthiness of an optional string (`None` and `""` are falsy). -/
def pyTruthyOptStr : Option String → Bool
  | none => false
  | some s => !(s == "")

/-- Python iteration over a value: lists yield elements, strings yield
one-character strings, dicts yield their keys, `None` is not iterable. -/
def pyEnumerate : JVal → Option (List JVal)
  | .arr l => some l
  | .str s => some (s.data.map (fun c => .str (String.singleton c)))
  | .obj l => some (l.map (fun kv => .str kv.1))
  | .null => none

/-! ### Python string primitives

Re-implemented structurally over `List Char` so that the kernel can evaluate
them (Python slicing and `len` count code points, as `List Char` does). -/

/-- The characters Python `str.strip()` removes. -/
def isPySpace (c : Char) : Bool :=
  c == ' ' || c == '\t' || c == '\n' || c == '\r' || c == '\x0b' || c == '\x0c'

/-- Python `s.strip()`. -/
def pyStrip (s : String) : String :=
  String.mk (((s.data.dropWhile isPySpace).reverse.dropWhile isPySpace).reverse)

/-- Python `s.lower()` (ASCII letters; all key-naming in the program is
applied through this one function, so the model is self-consistent). -/
def pyLower (s : String) : String := String.mk (s.data.map Char.toLower)

/-- Python `s[:n]`. -/
def pyTakeChars (n : Nat) (s : String) : String := String.mk (s.data.take n)

/-- Python `s[n:]`. -/
def pyDropChars (n : Nat) (s : String) : String := String.mk (s.data.drop n)

/-- Python `len(s)`. -/
def pyLen (s : String) : Nat := s.data.length

/-- Python `sub in s` on character lists (substring occurrence). -/
def containsSubL (sep : List Char) : List Char → Bool
  | [] => sep.isEmpty
  | c :: cs => sep.isPrefixOf (c :: cs) || containsSubL sep cs

/-- Python `sub in s`. -/
def pyIn (sub s : String) : Bool := containsSubL sub.data s.data

/-- Worker for Python `s.split(sep)`: leftmost, non-overlapping matches.
`fuel` is an upper bound on the number of steps (the input length suffices
for a non-empty separator); it only makes the recursion structural. -/
def splitOnAuxL (sep : List Char) : Nat → List Char → List Char → List (List Char)
  | 0, acc, rest => [acc.reverse ++ rest]
  | Nat.succ _, acc, [] => [acc.reverse]
  | Nat.succ fuel, acc, c :: cs =>
    if sep.isPrefixOf (c :: cs) && !sep.isEmpty then
      acc.reverse :: splitOnAuxL sep fuel [] (List.drop sep.length (c :: cs))
    else
      splitOnAuxL sep fuel (c :: acc) cs

/-- Python `s.split(sep)` for a non-empty separator. -/
def pySplit (sub s : String) : List String :=
  (splitOnAuxL sub.data (s.data.length + 1) [] s.data).map String.mk

/-- Python `s.replace(old, new)` for non-empty `old` (equal to
`new.join(s.split(old))`). -/
def joinWith (sep : String) : List String → String
  | [] => ""
  | [s] => s
  | s :: rest => s ++ sep ++ joinWith sep rest

/-- Python `s.replace(old, new)`. -/
def pyReplace (old new s : String) : String := joinWith new (pySplit old s)

/-- Python `s.startswith(pre)`. -/
def pyStartswith (pre s : String) : Bool := pre.data.isPrefixOf s.data

/-! ### Python `str()` / `repr()` and `json.dumps` on values -/

mutual
/-- Python `repr` of a value, as `str()` shows containers (string escaping
inside `repr` is simplified to plain quoting; no program string that reaches
`repr` in any verified claim contains a quote). -/
def pyRepr : JVal → String
  | .null => "None"
  | .str s => "\x27" ++ s ++ "\x27"
  | .arr l => "[" ++ pyReprList l ++ "]"
  | .obj l => "\x7b" ++ pyReprObj l ++ "\x7d"

/-- Comma-separated `repr`s of list elements. -/
def pyReprList : List JVal → String
  | [] => ""
  | [v] => pyRepr v
  | v :: vs => pyRepr v ++ ", " ++ pyReprList vs

/-- Comma-separated `repr`s of dict entries. -/
def pyReprObj : List (String × JVal) → String
  | [] => ""
  | [(k, v)] => "\x27" ++ k ++ "\x27: " ++ pyRepr v
  | (k, v) :: vs => "\x27" ++ k ++ "\x27: " ++ pyRepr v ++ ", " ++ pyReprObj vs
end

/-- Python `str()` applied by an f-string: strings pass through, other values
print like `repr`. -/
def pyStr : JVal → String
  | .str s => s
  | v => pyRepr v

/-- The string-escaping of `json.dumps` (quote, backslash and the common
control characters; other control characters never occur in the program's
own literals). -/
def jsonEscape (s : String) : String :=
  s.data.foldl
    (fun acc c =>
      if c == '\"' then acc ++ "\\\""
      else if c == '\\' then acc ++ "\\\\"
      else if c == '\n' then acc ++ "\\n"
      else if c == '\t' then acc ++ "\\t"
      else if c == '\r' then acc ++ "\\r"
      else acc ++ String.singleton c)
    ""

mutual
/-- `json.dumps(v, ensure_ascii=False)` with the default separators. -/
def json_dumps : JVal → String
  | .null => "null"
  | .str s => "\"" ++ jsonEscape s ++ "\""
  | .arr l => "[" ++ json_dumpsList l ++ "]"
  | .obj l => "\x7b" ++ json_dumpsObj l ++ "\x7d"

/-- Comma-separated dumps of list elements. -/
def json_dumpsList : List JVal → String
  | [] => ""
  | [v] => json_dumps v
  | v :: vs => json_dumps v ++ ", " ++ json_dumpsList vs

/-- Comma-separated dumps of dict entries. -/
def json_dumpsObj : List (String × JVal) → String
  | [] => ""
  | [(k, v)] => "\"" ++ jsonEscape k ++ "\": " ++ json_dumps v
  | (k, v) :: vs => "\"" ++ jsonEscape k ++ "\": " ++ json_dumps v ++ ", " ++ json_dumpsObj vs
end

/-- Python `", ".join(items)` over an iterated value: every element must be a
string, otherwise a `TypeError` is raised. -/
def pyJoin (sep : String) (v : JVal) : Option String := do
  let items ← pyEnumerate v
  let strs ← items.mapM (fun x => match x with | .str s => some s | _ => none)
  pure (joinWith sep strs)

/-- Python `", ".join(l)` for a list value. -/
def pyJoinStrs (sep : String) (l : List JVal) : Option String := do
  let strs ← l.mapM (fun x => match x with | .str s => some s | _ => none)
  pure (joinWith sep strs)

/-- Python `v[:n]`: slices strings and lists; raises (`none`) on `None` and
dicts. -/
def pySliceTake (v : JVal) (n : Nat) : Option JVal :=
  match v with
  | .str s => some (.str (pyTakeChars n s))
  | .arr l => some (.arr (l.take n))
  | .null => none
  | .obj _ => none

-- quick sanity checks of the Python-semantics primitives
example : pySplit "```" "a```b```c" = ["a", "b", "c"] := by decide
example : pySplit "ab" "abab" = ["", "", ""] := by decide
example : pySplit "```" "no fence" = ["no fence"] := by decide
example : pyIn "```json" "x ```json y" = true := by decide
example : pyIn "```json" "x ``` y" = false := by decide
example : pyStrip "  a b\n" = "a b" := by decide
example : pyReplace "verse_text_" "meditation_" "verse_text_english" = "meditation_english" := by decide
example : pyLower "Spanish" = "spanish" := by decide
example : pyStartswith "verse_text_" "verse_text_french" = true := by decide

/-! ### The external collaborators as oracles -/

/-- The chat-completion call `_call_gpt`: (system prompt, user message) to raw
response text.  Temperature and token limits do not affect the data flow and
are absorbed into the oracle; an API error surfaces as the string
`"Error: ..."`, which is just another response. -/
abbrev GptOracle := String → String → String

/-- `json.loads`: decodes a string to a value or raises (`none`). -/
abbrev JsonLoads := String → Option JVal

/-! ### The fenced-block extraction shared by all four generation stages

Lines 65-72, 105-112, 150-157 and 191-198 of the source are four verbatim
copies of the same block; it is defined once here.  The guarded list indexing
cannot miss: when the needle occurs, `split` returns at least two parts, so
the `getD` defaults are unreachable. -/

/-- The extraction: first a block labeled ```json, else the first generic
fence pair, else the raw response; always stripped. -/
def extract_json_str (response : String) : String :=
  if pyIn "```json" response then
    pyStrip ((pySplit "```" ((pySplit "```json" response).getD 1 "")).getD 0 "")
  else if pyIn "```" response then
    pyStrip ((pySplit "```" ((pySplit "```" response).getD 1 "")).getD 0 "")
  else
    pyStrip response

example :
    extract_json_str "noise ```json\n\x7b\"a\": 1\x7d\n``` more" = "\x7b\"a\": 1\x7d" := by decide
example : extract_json_str "text ```\n\x7b\x7d\n``` tail" = "\x7b\x7d" := by decide
example : extract_json_str "  plain  " = "plain" := by decide

/-! ### Stage 1: `agent_verse_retriever` -/

/-- The system prompt of the verse stage (source lines 49-59). -/
def verse_system_prompt (target_language language_level : String) : String :=
  "You are a Bible study coordinator agent. Your role is to:\n1. Select an appropriate verse of the day\n2. Provide a short meditation paragraph (2-3 sentences) in both English and "
    ++ target_language ++ "\n3. Ensure content is appropriate for " ++ language_level
    ++ " language learners\n\nReturn ONLY valid JSON with these exact keys:\n- \"verse_reference\": The Bible verse reference\n- \"verse_text_english\": The verse in English\n- \"verse_text_"
    ++ pyLower target_language ++ "\": The verse in " ++ target_language
    ++ "\n- \"meditation_english\": Meditation in English\n- \"meditation_"
    ++ pyLower target_language ++ "\": Meditation in " ++ target_language

/-- The user message of the verse stage (source line 61). -/
def verse_user_message (target_language language_level : String) : String :=
  "Provide verse of the day with meditation for " ++ target_language ++ " at "
    ++ language_level ++ " level."

/-- The fields of the verse-stage fallback record (source lines 75-81), in
literal order. -/
def verse_fb_fields (target_language response : String) : PyDict :=
  [("verse_reference", .str "John 3:16"),
   ("verse_text_english", .str "For God so loved the world..."),
   ("verse_text_" ++ pyLower target_language, .str (pyTakeChars 100 response)),
   ("meditation_english", .str "God\x27s love for humanity."),
   ("meditation_" ++ pyLower target_language,
     .str (if pyLen response > 100 then pyTakeChars 100 (pyDropChars 100 response)
           else "Meditaci√≥n"))]

/-- The verse-stage fallback record. -/
def verse_fallback (target_language response : String) : JVal :=
  .obj (verse_fb_fields target_language response)

/-- Agent 1 (source lines 47-81): one generation call, then parse-or-fallback. -/
def agent_verse_retriever (gpt : GptOracle) (loads : JsonLoads)
    (target_language language_level : String) : JVal :=
  let response := gpt (verse_system_prompt target_language language_level)
    (verse_user_message target_language language_level)
  match loads (extract_json_str response) with
  | some record => record
  | none => verse_fallback target_language response

/-! ### Stage 2: `agent_content_creator` -/

/-- The system prompt of the reading stage (source lines 85-97). -/
def content_system_prompt (target_language language_level : String) : String :=
  "You are a language learning content creator.\nCreate a reading comprehension paragraph (150-200 words) in "
    ++ target_language ++ ".\n\nRequirements:\n- Appropriate for " ++ language_level
    ++ " level\n- Include theological insights and practical applications\n- Use clear, educational language\n- Natural pronunciation-friendly text (avoid complex punctuation)\n\nReturn ONLY valid JSON with:\n- \"reading_text_"
    ++ pyLower target_language ++ "\": Reading text in " ++ target_language
    ++ "\n- \"reading_text_english\": Reading text in English\n- \"key_vocabulary\": Array of important vocabulary words"

/-- The user message of the reading stage (source lines 99-101); the two
`verse_data.get` lookups raise if `verse_data` is not a dict. -/
def content_user_message (target_language : String) (verse_data : JVal) : Option String := do
  let vref ← jGet verse_data "verse_reference" (.str "N/A")
  let vtext ← jGet verse_data ("verse_text_" ++ pyLower target_language) (.str "")
  pure ("Create content based on:\nVerse: " ++ pyStr vref ++ "\nText: " ++ pyStr vtext)

/-- The fields of the reading-stage fallback record (source lines 115-119). -/
def reading_fb_fields (target_language response : String) : PyDict :=
  [("reading_text_" ++ pyLower target_language, .str (pyTakeChars 300 response)),
   ("reading_text_english", .str "Reading comprehension text"),
   ("key_vocabulary", .arr [.str "faith", .str "love", .str "grace"])]

/-- The reading-stage fallback record. -/
def reading_fallback (target_language response : String) : JVal :=
  .obj (reading_fb_fields target_language response)

/-- Agent 2 (source lines 83-119). -/
def agent_content_creator (gpt : GptOracle) (loads : JsonLoads)
    (target_language : String) (verse_data : JVal) (language_level : String) : Option JVal := do
  let user_message ← content_user_message target_language verse_data
  let response := gpt (content_system_prompt target_language language_level) user_message
  pure (match loads (extract_json_str response) with
        | some record => record
        | none => reading_fallback target_language response)

/-! ### Stage 3: `agent_lesson_designer` -/

/-- The system prompt of the exercise stage (source lines 123-141). -/
def designer_system_prompt (target_language language_level : String) : String :=
  "You are an expert language lesson designer for " ++ target_language
    ++ ".\nCreate a comprehensive lesson for " ++ language_level
    ++ " level including:\n\n1. READING: 4-5 comprehension questions about the reading text (in "
    ++ target_language ++ ")\n2. WRITING: 3 writing prompts related to the theme (in "
    ++ target_language ++ ")\n3. LISTENING: 4 questions about what students should listen for in the audio (in "
    ++ target_language ++ ")\n4. SPEAKING: 3 speaking prompts for oral practice (in "
    ++ target_language ++ ")\n5. FILLING: 3-4 fill-in-the-blank sentences using vocabulary from the reading (in "
    ++ target_language ++ ")\n   - Use ___ to indicate where the word should go\n   - Make blanks appropriate for "
    ++ language_level
    ++ " level\n\nReturn ONLY valid JSON with:\n- \"reading_exercises\": Array of objects with \"question\" field\n- \"writing_exercises\": Array of objects with \"question\" field\n- \"listening_exercises\": Array of objects with \"question\" field\n- \"speaking_exercises\": Array of objects with \"question\" field\n- \"filling_exercises\": Array of objects with \"question\" field (sentences with ___ for blanks)\n\nReturn ONLY the JSON object, no additional text."

/-- The user message of the exercise stage (source lines 143-146). -/
def designer_user_message (target_language : String)
    (verse_data reading_data : JVal) : Option String := do
  let vref ← jGet verse_data "verse_reference" JVal.null
  let rt ← jGet reading_data ("reading_text_" ++ pyLower target_language) (.str "")
  let rt200 ← pySliceTake rt 200
  let vocab ← jGet reading_data "key_vocabulary" (.arr [])
  pure ("Design lesson based on:\nVerse: " ++ pyStr vref ++ "\nReading: " ++ pyStr rt200
    ++ "\nVocabulary: " ++ pyStr vocab)

/-- The exercise-stage fallback record (source lines 160-166): one item per
category. -/
def designer_fallback : JVal :=
  .obj [
    ("reading_exercises", .arr [.obj [("question",
      .str "¬øCu√°l es el tema principal del texto?")]]),
    ("writing_exercises", .arr [.obj [("question",
      .str "Escribe sobre tu experiencia personal con este tema.")]]),
    ("listening_exercises", .arr [.obj [("question",
      .str "¬øQu√© palabras clave escuchaste?")]]),
    ("speaking_exercises", .arr [.obj [("question",
      .str "Explica el significado del verso en tus propias palabras.")]]),
    ("filling_exercises", .arr [.obj [("question",
      .str "La ___ es importante en la vida cristiana.")]])]

/-- Agent 3 (source lines 121-166). -/
def agent_lesson_designer (gpt : GptOracle) (loads : JsonLoads)
    (target_language : String) (verse_data reading_data : JVal)
    (language_level : String) : Option JVal := do
  let user_message ← designer_user_message target_language verse_data reading_data
  let response := gpt (designer_system_prompt target_language language_level) user_message
  pure (match loads (extract_json_str response) with
        | some record => record
        | none => designer_fallback)

/-! ### Stage 4: `agent_answer_key_generator` -/

/-- The system prompt of the answer stage (source lines 170-182). -/
def answer_system_prompt (target_language : String) : String :=
  "You are an answer key generator for " ++ target_language
    ++ ".\nProvide detailed answers and model responses in " ++ target_language
    ++ ".\n\nFor filling exercises, provide ONLY the word(s) that should fill the blank(s).\n\nReturn ONLY valid JSON with:\n- \"reading_exercises\": Array with \"answer\" and \"explanation\"\n- \"writing_exercises\": Array with \"answer\" (model response) and \"explanation\"\n- \"listening_exercises\": Array with \"answer\" (key points to listen for) and \"explanation\"\n- \"speaking_exercises\": Array with \"answer\" (sample response) and \"explanation\"\n- \"filling_exercises\": Array with \"answer\" (the missing word/phrase ONLY) and \"explanation\"\n        \nReturn ONLY the JSON object, no additional text."

/-- The user message of the answer stage (source lines 184-187). -/
def answer_user_message (target_language : String)
    (lesson_data reading_data : JVal) : Option String := do
  let rt ← jGet reading_data ("reading_text_" ++ pyLower target_language) (.str "")
  let rt300 ← pySliceTake rt 300
  let vocab ← jGet reading_data "key_vocabulary" (.arr [])
  pure ("Generate answers for:\nExercises: " ++ pyTakeChars 500 (json_dumps lesson_data)
    ++ "\nReading context: " ++ pyStr rt300 ++ "\nVocabulary: " ++ pyStr vocab)

/-- The answer-stage fallback record (source lines 201-207). -/
def answer_fallback : JVal :=
  .obj [
    ("reading_exercises", .arr [.obj [
      ("answer", .str "El tema principal es..."),
      ("explanation", .str "Se encuentra en el p√°rrafo principal")]]),
    ("writing_exercises", .arr [.obj [
      ("answer", .str "Ejemplo de respuesta modelo"),
      ("explanation", .str "Respuesta modelo")]]),
    ("listening_exercises", .arr [.obj [
      ("answer", .str "Palabras clave: fe, amor, esperanza"),
      ("explanation", .str "Escuchar atentamente")]]),
    ("speaking_exercises", .arr [.obj [
      ("answer", .str "El verso significa que..."),
      ("explanation", .str "Gu√≠a de conversaci√≥n")]]),
    ("filling_exercises", .arr [.obj [
      ("answer", .str "fe"),
      ("explanation", .str "La palabra correcta es \x27fe\x27 seg√∫n el contexto")]])]

/-- Agent 4 (source lines 168-207); `verse_data` is accepted but never read,
as in the source. -/
def agent_answer_key_generator (gpt : GptOracle) (loads : JsonLoads)
    (target_language : String) (lesson_data verse_data reading_data : JVal) : Option JVal := do
  let user_message ← answer_user_message target_language lesson_data reading_data
  let response := gpt (answer_system_prompt target_language) user_message
  pure (match loads (extract_json_str response) with
        | some record => record
        | none => answer_fallback)

/-! ### Stage 5: `agent_tts_generator` -/

/-- The ElevenLabs language-to-voice table (source lines 216-227), in literal
order. -/
def voice_map : List (String × String) :=
  [("Spanish", "pNInz6obpgDQGcFmaJgB"),
   ("French", "pNInz6obpgDQGcFmaJgB"),
   ("German", "pNInz6obpgDQGcFmaJgB"),
   ("Italian", "pNInz6obpgDQGcFmaJgB"),
   ("Portuguese", "pNInz6obpgDQGcFmaJgB"),
   ("Chinese", "pNInz6obpgDQGcFmaJgB"),
   ("Japanese", "pNInz6obpgDQGcFmaJgB"),
   ("Korean", "pNInz6obpgDQGcFmaJgB"),
   ("Arabic", "pNInz6obpgDQGcFmaJgB"),
   ("Hebrew", "pNInz6obpgDQGcFmaJgB")]

/-- `voice_map.get(self.target_language, "pNInz6obpgDQGcFmaJgB")`
(source line 229). -/
def tts_voice_id (target_language : String) : String :=
  match voice_map.find? (fun kv => kv.1 == target_language) with
  | some kv => kv.2
  | none => "pNInz6obpgDQGcFmaJgB"

/-- One synthesis request as assembled in source lines 232-247 (the fields
that vary; the fixed Accept/Content-Type headers carry no information). -/
structure TtsRequest where
  url : String
  api_key : String
  text : JVal
  model_id : String
  stability : ℚ
  similarity_boost : ℚ

/-- Outcome of `requests.post`: a response with status code, body bytes and
diagnostic text, or a raised transport exception. -/
inductive TtsResult where
  | ok (status_code : Nat) (content : String) (body : String)
  | exn (msg : String)

/-- The `requests.post` oracle. -/
abbrev TtsPost := TtsRequest → TtsResult

/-- Agent 5 (source lines 209-267).  Returns the audio path (`none` models
Python returning `None`) together with the list of network requests issued,
so that claims about "no network call" are statable. -/
def agent_tts_generator (post : TtsPost) (elevenlabs_key : Option String)
    (target_language temp_dir now_stamp : String) (reading_text : JVal) :
    Option String × List TtsRequest :=
  if !(pyTruthyOptStr elevenlabs_key) then (none, [])
  else
    let voice_id := tts_voice_id target_language
    let req : TtsRequest :=
      { url := "https://api.elevenlabs.io/v1/text-to-speech/" ++ voice_id
        api_key := elevenlabs_key.getD ""
        text := reading_text
        model_id := "eleven_multilingual_v2"
        stability := 0.5
        similarity_boost := 0.75 }
    match post req with
    | .exn _ => (none, [req])
    | .ok status _ _ =>
      if status == 200 then
        (some (temp_dir ++ "/reading_audio_" ++ now_stamp ++ ".mp3"), [req])
      else (none, [req])

/-! ### The PDF renderer `generate_pdf`

Elements are modeled as the flowable list handed to `doc.build`: paragraphs
(text and style name), spacers and page breaks.  Spacer dimensions, margins
and font details are presentation data with no information flow and are
dropped.  The timestamped file name and the date line are parameterized by
the two `strftime` strings. -/

/-- A document flowable. -/
inductive PdfElem where
  | para (text : String) (style : String)
  | spacer
  | pageBreak
deriving DecidableEq

/-- `_add_exercises` (source lines 375-386): heading, then numbered prompts
for a list input (non-lists are silently skipped by the `isinstance` guard). -/
def add_exercises (title : String) (exercises : JVal) : List PdfElem :=
  [PdfElem.para title "Heading2", PdfElem.spacer] ++
  (match exercises with
   | .arr l =>
     (l.enum.map (fun p =>
       let question :=
         match p.2 with
         | .obj d => pyStr (dictGet d "question" (.str (pyStr p.2)))
         | v => pyStr v
       [PdfElem.para (toString (p.1 + 1) ++ ". " ++ question) "BodyText",
        PdfElem.spacer])).flatten
   | _ => []) ++
  [PdfElem.spacer]

/-- `_add_answers` (source lines 388-406). -/
def add_answers (title : String) (answers : JVal) : List PdfElem :=
  [PdfElem.para ("<b>" ++ title ++ "</b>") "Heading3", PdfElem.spacer] ++
  (match answers with
   | .arr l =>
     (l.enum.map (fun p =>
       let text :=
         match p.2 with
         | .obj d =>
           let answer := dictGet d "answer" (.str "")
           let explanation := dictGet d "explanation" (.str "")
           let base := toString (p.1 + 1) ++ ". <b>" ++ pyStr answer ++ "</b>"
           if jTruthy explanation then base ++ " <i>(" ++ pyStr explanation ++ ")</i>"
           else base
         | v => toString (p.1 + 1) ++ ". " ++ pyStr v
       [PdfElem.para text "BodyText", PdfElem.spacer])).flatten
   | _ => []) ++
  [PdfElem.spacer]

/-- `generate_pdf` (source lines 269-373) with the always-`None` `filename`
parameter resolved as in the only call site: the path is
`temp_dir/bible_lesson_<stamp>.pdf`.  `none` models an exception (a non-dict
where a `.get` is called, or a non-string vocabulary entry in `join`). -/
def generate_pdf (target_language temp_dir date_str now_stamp : String)
    (lesson_content : PyDict) : Option (String × List PdfElem) := do
  let filename := "bible_lesson_" ++ now_stamp ++ ".pdf"
  let filepath := temp_dir ++ "/" ++ filename
  let title := PdfElem.para
    ("Bible Language Learning Lesson<br/>" ++ target_language) "CustomTitle"
  let date_text := "Date: " ++ date_str ++ "<br/>Level: "
    ++ pyStr (dictGet lesson_content "level" (.str "B1"))
  let verse_data ← jAsDict (dictGet lesson_content "verse_data" (.obj []))
  let verse_ref := pyStr (dictGet verse_data "verse_reference" (.str "N/A"))
  let verse_text := pyStr
    (dictGet verse_data ("verse_text_" ++ pyLower target_language) (.str "N/A"))
  let meditation := dictGet verse_data
    ("meditation_" ++ pyLower target_language) (.str "")
  let meditationElems :=
    if jTruthy meditation then
      [PdfElem.para ("<b>Meditation:</b> " ++ pyStr meditation) "BodyText",
       PdfElem.spacer]
    else []
  let reading_data ← jAsDict (dictGet lesson_content "reading_data" (.obj []))
  let reading_text := pyStr
    (dictGet reading_data ("reading_text_" ++ pyLower target_language) (.str "N/A"))
  let audioElems :=
    if jTruthy (dictGet lesson_content "audio_path" JVal.null) then
      [PdfElem.para "<b>üîä Audio available for listening exercise</b>" "BodyText",
       PdfElem.spacer]
    else []
  let vocab := dictGet reading_data "key_vocabulary" (.arr [])
  let vocabElems ←
    if jTruthy vocab then do
      let vocab_text ←
        match vocab with
        | .arr l => pyJoinStrs ", " l
        | v => pure (pyStr v)
      pure [PdfElem.para "<b>Key Vocabulary:</b>" "BodyText",
            PdfElem.para vocab_text "BodyText", PdfElem.spacer]
    else pure []
  let lesson_data ← jAsDict (dictGet lesson_content "lesson_data" (.obj []))
  let answers ← jAsDict (dictGet lesson_content "answers" (.obj []))
  let elements : List PdfElem :=
    [title, PdfElem.spacer,
     PdfElem.para date_text "BodyText", PdfElem.spacer,
     PdfElem.para "üìñ Verse of the Day" "Heading2", PdfElem.spacer,
     PdfElem.para ("<b>" ++ verse_ref ++ "</b>") "BodyText",
     PdfElem.para ("<i>" ++ verse_text ++ "</i>") "BodyText", PdfElem.spacer]
    ++ meditationElems
    ++ [PdfElem.para "üìö Reading Comprehension" "Heading2", PdfElem.spacer,
        PdfElem.para reading_text "BodyText", PdfElem.spacer]
    ++ audioElems
    ++ vocabElems
    ++ [PdfElem.pageBreak]
    ++ add_exercises "üìñ Reading Exercises" (dictGet lesson_data "reading_exercises" (.arr []))
    ++ add_exercises "‚úçÔ∏è Writing Exercises" (dictGet lesson_data "writing_exercises" (.arr []))
    ++ add_exercises "üëÇ Listening Exercises" (dictGet lesson_data "listening_exercises" (.arr []))
    ++ add_exercises "üó£Ô∏è Speaking Exercises" (dictGet lesson_data "speaking_exercises" (.arr []))
    ++ add_exercises "‚úèÔ∏è Fill-in-the-Blank Exercises" (dictGet lesson_data "filling_exercises" (.arr []))
    ++ [PdfElem.pageBreak]
    ++ [PdfElem.para "‚úÖ Answer Key" "Heading2", PdfElem.spacer]
    ++ add_answers "Reading Answers" (dictGet answers "reading_exercises" (.arr []))
    ++ add_answers "Writing Answers" (dictGet answers "writing_exercises" (.arr []))
    ++ add_answers "Listening Answers" (dictGet answers "listening_exercises" (.arr []))
    ++ add_answers "Speaking Answers" (dictGet answers "speaking_exercises" (.arr []))
    ++ add_answers "Fill-in-the-Blank Answers" (dictGet answers "filling_exercises" (.arr []))
  pure (filepath, elements)

/-! ### Orchestration: `run_full_lesson_generation` -/

/-- What one full run returns: the `lesson_content` dict, the PDF path and
the audio path of the source, plus the trace of synthesis requests issued
(instrumentation needed to state the no-network-call claims). -/
structure RunResult where
  lesson_content : PyDict
  pdf_path : String
  audio_path : Option String
  tts_requests : List TtsRequest

/-- `run_full_lesson_generation` (source lines 408-450).  Progress callbacks
carry no data and are dropped.  `none` models an uncaught exception
propagating to the caller. -/
def run_full_lesson_generation (gpt : GptOracle) (loads : JsonLoads) (post : TtsPost)
    (elevenlabs_key : Option String) (target_language temp_dir date_str now_stamp : String)
    (language_level : String) : Option RunResult := do
  let verse_data := agent_verse_retriever gpt loads target_language language_level
  let reading_data ← agent_content_creator gpt loads target_language verse_data language_level
  let lesson_data ← agent_lesson_designer gpt loads target_language verse_data reading_data
    language_level
  let answers ← agent_answer_key_generator gpt loads target_language lesson_data verse_data
    reading_data
  let audioStep ←
    if pyTruthyOptStr elevenlabs_key then do
      let reading_text ← jGet reading_data
        ("reading_text_" ++ pyLower target_language) (.str "")
      if jTruthy reading_text then
        pure (agent_tts_generator post elevenlabs_key target_language temp_dir now_stamp
          reading_text)
      else pure ((none : Option String), ([] : List TtsRequest))
    else pure ((none : Option String), ([] : List TtsRequest))
  let audio_path := audioStep.1
  let lesson_content : PyDict :=
    [("level", .str language_level),
     ("verse_data", verse_data),
     ("reading_data", reading_data),
     ("lesson_data", lesson_data),
     ("answers", answers),
     ("audio_path", match audio_path with | some p => .str p | none => JVal.null)]
  let pdfRes ← generate_pdf target_language temp_dir date_str now_stamp lesson_content
  pure ⟨lesson_content, pdfRes.1, audio_path, audioStep.2⟩

/-! ### The display formatter `format_lesson_display` -/

/-- Source line 460: the verse-record keys with the stage prefix, excluding
the English variant. -/
def display_lang_keys (verse_data : PyDict) : List String :=
  (dictKeys verse_data).filter
    (fun k => pyStartswith "verse_text_" k && !(k == "verse_text_english"))

/-- Source line 461: first match, else the English key. -/
def verse_lang_key (verse_data : PyDict) : String :=
  match display_lang_keys verse_data with
  | [] => "verse_text_english"
  | k :: _ => k

/-- Source line 462. -/
def meditation_lang_key (verse_data : PyDict) : String :=
  pyReplace "verse_text_" "meditation_" (verse_lang_key verse_data)

/-- Source line 463. -/
def reading_lang_key (verse_data : PyDict) : String :=
  pyReplace "verse_text_" "reading_text_" (verse_lang_key verse_data)

/-- The displayed verse text (source line 470). -/
def display_verse_value (verse_data : PyDict) : JVal :=
  dictGet verse_data (verse_lang_key verse_data)
    (dictGet verse_data "verse_text_english" (.str "N/A"))

/-- The displayed meditation (source line 473). -/
def display_meditation_value (verse_data : PyDict) : JVal :=
  dictGet verse_data (meditation_lang_key verse_data)
    (dictGet verse_data "meditation_english" (.str "N/A"))

/-- The displayed reading passage (source line 479). -/
def display_reading_value (verse_data reading_data : PyDict) : JVal :=
  dictGet reading_data (reading_lang_key verse_data)
    (dictGet reading_data "reading_text_english" (.str "N/A"))

/-- One numbered exercise block of the formatter (source lines 490-507
pattern); unlike `_add_exercises`, a non-dict item raises here. -/
def display_block (lesson_data : PyDict) (key : String) : Option String := do
  let items ← pyEnumerate (dictGet lesson_data key (.arr []))
  let lines ← items.enum.mapM (fun p =>
    match p.2 with
    | .obj d =>
      some (toString (p.1 + 1) ++ ". " ++ pyStr (dictGet d "question" (.str (pyStr p.2)))
        ++ "\n")
    | _ => none)
  pure (joinWith "" lines)

/-- `format_lesson_display` (source lines 453-509). -/
def format_lesson_display (lesson_content : PyDict) : Option String := do
  let verse_data ← jAsDict (dictGet lesson_content "verse_data" (.obj []))
  let reading_data ← jAsDict (dictGet lesson_content "reading_data" (.obj []))
  let lesson_data ← jAsDict (dictGet lesson_content "lesson_data" (.obj []))
  let vocabStr ← pyJoin ", " (dictGet reading_data "key_vocabulary" (.arr []))
  let readingBlock ← display_block lesson_data "reading_exercises"
  let writingBlock ← display_block lesson_data "writing_exercises"
  let listeningBlock ← display_block lesson_data "listening_exercises"
  let speakingBlock ← display_block lesson_data "speaking_exercises"
  let fillingBlock ← display_block lesson_data "filling_exercises"
  pure ("\n# üìñ Verse of the Day\n\n**"
    ++ pyStr (dictGet verse_data "verse_reference" (.str "N/A"))
    ++ "**\n\n*" ++ pyStr (display_verse_value verse_data)
    ++ "*\n\n**Meditation:**\n" ++ pyStr (display_meditation_value verse_data)
    ++ "\n\n---\n\n# üìö Reading Comprehension\n\n"
    ++ pyStr (display_reading_value verse_data reading_data)
    ++ "\n\n**Key Vocabulary:** " ++ vocabStr
    ++ "\n\n---\n\n# üìù Exercises\n\n## üìñ Reading Exercises\n"
    ++ readingBlock
    ++ "\n## ‚úçÔ∏è Writing Exercises\n" ++ writingBlock
    ++ "\n## üëÇ Listening Exercises\n" ++ listeningBlock
    ++ "\n## üó£Ô∏è Speaking Exercises\n" ++ speakingBlock
    ++ "\n## ‚úèÔ∏è Fill-in-the-Blank Exercises\n" ++ fillingBlock)

/-! ### Helper lemmas -/

/-- Two strings are equal when their character lists are. -/
theorem string_ext (s t : String) (h : s.data = t.data) : s = t := by
  cases s; cases t; exact congrArg String.mk h

/-- A string cannot equal an extension of a non-prefix. -/
theorem beq_append_right_false (t s u : String) (h : s.data.isPrefixOf t.data = false) :
    (t == s ++ u) = false := by
  refine beq_eq_false_iff_ne.mpr (fun heq => ?_)
  have hd : s.data <+: t.data := by
    refine ⟨u.data, ?_⟩
    rw [heq, String.data_append]
  rw [← List.isPrefixOf_iff_prefix] at hd
  rw [hd] at h
  simp at h

/-- Symmetric form of `beq_append_right_false`. -/
theorem beq_append_left_false (t s u : String) (h : s.data.isPrefixOf t.data = false) :
    (s ++ u == t) = false := by
  refine beq_eq_false_iff_ne.mpr (fun heq => ?_)
  have hb := beq_append_right_false t s u h
  rw [← heq, beq_self_eq_true] at hb
  simp at hb

/-- Extensions of mutually non-prefix stems are never equal. -/
theorem append_beq_append_false (s t u v : String)
    (h1 : s.data.isPrefixOf t.data = false) (h2 : t.data.isPrefixOf s.data = false) :
    (s ++ u == t ++ v) = false := by
  refine beq_eq_false_iff_ne.mpr (fun heq => ?_)
  have hd : s.data ++ u.data = t.data ++ v.data := by
    rw [← String.data_append, ← String.data_append, heq]
  have hp1 : s.data <+: t.data ++ v.data := hd ▸ ⟨u.data, rfl⟩
  rcases List.prefix_or_prefix_of_prefix hp1 (List.prefix_append t.data v.data) with hp | hp
  · rw [← List.isPrefixOf_iff_prefix] at hp; rw [hp] at h1; simp at h1
  · rw [← List.isPrefixOf_iff_prefix] at hp; rw [hp] at h2; simp at h2

/-- Occurrence of a needle forces occurrence of any of its prefixes. -/
theorem containsSubL_mono (s1 s2 l : List Char) (hp : s1 <+: s2) :
    containsSubL s2 l = true → containsSubL s1 l = true := by
  induction l with
  | nil =>
    intro h
    simp only [containsSubL, List.isEmpty_iff] at h ⊢
    subst h
    exact List.prefix_nil.mp hp
  | cons c cs ih =>
    intro h
    simp only [containsSubL, Bool.or_eq_true] at h ⊢
    rcases h with h | h
    · exact Or.inl (by
        rw [List.isPrefixOf_iff_prefix] at h
        rw [List.isPrefixOf_iff_prefix]
        exact hp.trans h)
    · exact Or.inr (ih h)

/-- No generic fence in the response means no labeled fence either. -/
theorem pyIn_json_false_of_ticks_false (s : String) (h : pyIn "```" s = false) :
    pyIn "```json" s = false := by
  by_contra hc
  rw [Bool.not_eq_false] at hc
  have := containsSubL_mono ("```".data) ("```json".data) s.data (by decide) hc
  rw [pyIn] at h
  rw [this] at h
  simp at h

/-- Looking a key up with its own lookup as the default is the plain lookup. -/
theorem dictGet_default_self (d : PyDict) (k : String) (v : JVal) :
    dictGet d k (dictGet d k v) = dictGet d k v := by
  induction d generalizing v with
  | nil => rfl
  | cons kv rest ih =>
    obtain ⟨k2, w⟩ := kv
    by_cases h : (k2 == k) = true
    · simp only [dictGet, h, if_true]
    · rw [Bool.not_eq_true] at h
      simp only [dictGet, h, if_false]
      exact ih v

/-- Congruence for mapping over the same optional value. -/
theorem optMapCongr {α β : Type} (o : Option α) (f g : α → β)
    (h : ∀ a, o = some a → f a = g a) : o.map f = o.map g := by
  cases o with
  | none => rfl
  | some a => simp [h a rfl]

/-! ### C9 -/

/-- C9: the audio stage's voice lookup resolves every target-language label,
mapped or not, to the one constant voice identifier, because every entry of
the table and the unmapped-language default are that same constant. -/
theorem C9_voice_lookup_constant :
    (∀ target_language, tts_voice_id target_language = "pNInz6obpgDQGcFmaJgB")
    ∧ voice_map.all (fun kv => kv.2 == "pNInz6obpgDQGcFmaJgB") = true := by
  constructor
  · intro lang
    unfold tts_voice_id
    cases hf : voice_map.find? (fun kv => kv.1 == lang) with
    | none => rfl
    | some kv =>
      have hm : kv ∈ voice_map := List.mem_of_find?_eq_some hf
      have hall : ∀ kv2 ∈ voice_map, kv2.2 = "pNInz6obpgDQGcFmaJgB" := by decide
      exact hall kv hm
  · decide

/-! ### C6 -/

/-- A verse record used to refute the universally-quantified form of C6: it
contains both the French and the English text keys, but another
language-specific key precedes the French one in insertion order. -/
def c6_record : PyDict :=
  [("verse_text_spanish", .str "Dios es amor"),
   ("verse_text_french", .str "Dieu est amour"),
   ("verse_text_english", .str "God is love")]

/-- C6 counterexample: `c6_record` has both "verse_text_french" and
"verse_text_english", yet the formatter selects "verse_text_spanish" (the
first non-English match in key order), not "verse_text_french". -/
theorem C6_counterexample :
    ("verse_text_french" ∈ dictKeys c6_record
      ∧ "verse_text_english" ∈ dictKeys c6_record)
    ∧ verse_lang_key c6_record = "verse_text_spanish"
    ∧ verse_lang_key c6_record ≠ "verse_text_french" := by decide

/-- C6 (amended): the formatter selects the first key in insertion order that
starts with "verse_text_" and is not "verse_text_english"; in particular it
selects "verse_text_french" whenever that is the only such key, and it never
selects "verse_text_english" while some other "verse_text_"-prefixed key
exists. -/
theorem C6_primary_key_selection :
    (∀ verse_data : PyDict,
      (∃ k ∈ dictKeys verse_data,
          pyStartswith "verse_text_" k = true ∧ k ≠ "verse_text_english") →
      verse_lang_key verse_data ≠ "verse_text_english"
        ∧ pyStartswith "verse_text_" (verse_lang_key verse_data) = true
        ∧ verse_lang_key verse_data ∈ dictKeys verse_data)
    ∧ (∀ verse_data : PyDict,
      "verse_text_french" ∈ dictKeys verse_data →
      (∀ k ∈ dictKeys verse_data,
        pyStartswith "verse_text_" k = true → k ≠ "verse_text_english" →
        k = "verse_text_french") →
      verse_lang_key verse_data = "verse_text_french") := by
  constructor
  · intro vd ⟨k, hk, hpre, hne⟩
    have hmem : k ∈ display_lang_keys vd := by
      rw [display_lang_keys, List.mem_filter]
      exact ⟨hk, by simp [hpre, hne]⟩
    cases hl : display_lang_keys vd with
    | nil => rw [hl] at hmem; exact absurd hmem (List.not_mem_nil k)
    | cons k0 rest =>
      have hk0 : k0 ∈ display_lang_keys vd := hl ▸ List.mem_cons_self k0 rest
      rw [display_lang_keys, List.mem_filter] at hk0
      have hsel : verse_lang_key vd = k0 := by rw [verse_lang_key, hl]
      refine ⟨?_, ?_, ?_⟩
      · rw [hsel]
        have := hk0.2
        simp only [Bool.and_eq_true, Bool.not_eq_true', beq_eq_false_iff_ne] at this
        exact this.2
      · rw [hsel]
        have := hk0.2
        simp only [Bool.and_eq_true] at this
        exact this.1
      · rw [hsel]; exact hk0.1
  · intro vd hf honly
    have hmem : "verse_text_french" ∈ display_lang_keys vd := by
      rw [display_lang_keys, List.mem_filter]
      exact ⟨hf, by decide⟩
    cases hl : display_lang_keys vd with
    | nil => rw [hl] at hmem; exact absurd hmem (List.not_mem_nil _)
    | cons k0 rest =>
      have hk0 : k0 ∈ display_lang_keys vd := hl ▸ List.mem_cons_self k0 rest
      rw [display_lang_keys, List.mem_filter] at hk0
      have hp := hk0.2
      simp only [Bool.and_eq_true, Bool.not_eq_true', beq_eq_false_iff_ne] at hp
      rw [verse_lang_key, hl]
      exact honly k0 hk0.1 hp.1 hp.2

/-- C6 witness: the amended selection facts at concrete records. -/
theorem C6_primary_key_selection_witness :
    (verse_lang_key [("verse_reference", JVal.str "John 3:16"),
        ("verse_text_english", JVal.str "God is love"),
        ("verse_text_french", JVal.str "Dieu est amour")] ≠ "verse_text_english"
      ∧ pyStartswith "verse_text_" (verse_lang_key [("verse_reference", JVal.str "John 3:16"),
        ("verse_text_english", JVal.str "God is love"),
        ("verse_text_french", JVal.str "Dieu est amour")]) = true
      ∧ verse_lang_key [("verse_reference", JVal.str "John 3:16"),
        ("verse_text_english", JVal.str "God is love"),
        ("verse_text_french", JVal.str "Dieu est amour")] ∈
          dictKeys [("verse_reference", JVal.str "John 3:16"),
        ("verse_text_english", JVal.str "God is love"),
        ("verse_text_french", JVal.str "Dieu est amour")])
    ∧ verse_lang_key [("verse_reference", JVal.str "John 3:16"),
        ("verse_text_english", JVal.str "God is love"),
        ("verse_text_french", JVal.str "Dieu est amour")] = "verse_text_french" :=
  ⟨C6_primary_key_selection.1 _ ⟨"verse_text_french", by decide, by decide, by decide⟩,
   C6_primary_key_selection.2 _ (by decide) (by decide)⟩

/-! ### C10 -/

/-- C10: the meditation and reading lookup keys are derived from the verse
record's key set alone; when the verse record has no "verse_text_"-prefixed
key other than the English one, the verse, meditation and reading sections
all fall back to the English fields, regardless of any language-specific key
the reading record itself may contain. -/
theorem C10_reading_key_from_verse_record (verse_data reading_data : PyDict)
    (h : ∀ k ∈ dictKeys verse_data,
      pyStartswith "verse_text_" k = true → k = "verse_text_english") :
    verse_lang_key verse_data = "verse_text_english"
    ∧ meditation_lang_key verse_data = "meditation_english"
    ∧ reading_lang_key verse_data = "reading_text_english"
    ∧ display_verse_value verse_data
        = dictGet verse_data "verse_text_english" (.str "N/A")
    ∧ display_meditation_value verse_data
        = dictGet verse_data "meditation_english" (.str "N/A")
    ∧ display_reading_value verse_data reading_data
        = dictGet reading_data "reading_text_english" (.str "N/A") := by
  have hnil : display_lang_keys verse_data = [] := by
    rw [display_lang_keys, List.filter_eq_nil_iff]
    intro k hk
    simp only [Bool.and_eq_true, Bool.not_eq_true', beq_eq_false_iff_ne, not_and]
    intro hpre hne
    exact hne (h k hk hpre)
  have hv : verse_lang_key verse_data = "verse_text_english" := by
    rw [verse_lang_key, hnil]
  have hm : meditation_lang_key verse_data = "meditation_english" := by
    rw [meditation_lang_key, hv]; decide
  have hr : reading_lang_key verse_data = "reading_text_english" := by
    rw [reading_lang_key, hv]; decide
  refine ⟨hv, hm, hr, ?_, ?_, ?_⟩
  · rw [display_verse_value, hv]; exact dictGet_default_self ..
  · rw [display_meditation_value, hm]; exact dictGet_default_self ..
  · rw [display_reading_value, hr]; exact dictGet_default_self ..

/-- C10 witness: a reading record that does contain "reading_text_spanish"
still displays only the English reading text when the verse record has no
non-English "verse_text_" key. -/
theorem C10_reading_key_from_verse_record_witness :
    verse_lang_key [("verse_reference", JVal.str "John 3:16"),
        ("verse_text_english", JVal.str "God is love")] = "verse_text_english"
    ∧ meditation_lang_key [("verse_reference", JVal.str "John 3:16"),
        ("verse_text_english", JVal.str "God is love")] = "meditation_english"
    ∧ reading_lang_key [("verse_reference", JVal.str "John 3:16"),
        ("verse_text_english", JVal.str "God is love")] = "reading_text_english"
    ∧ display_verse_value [("verse_reference", JVal.str "John 3:16"),
        ("verse_text_english", JVal.str "God is love")]
        = dictGet [("verse_reference", JVal.str "John 3:16"),
        ("verse_text_english", JVal.str "God is love")] "verse_text_english" (.str "N/A")
    ∧ display_meditation_value [("verse_reference", JVal.str "John 3:16"),
        ("verse_text_english", JVal.str "God is love")]
        = dictGet [("verse_reference", JVal.str "John 3:16"),
        ("verse_text_english", JVal.str "God is love")] "meditation_english" (.str "N/A")
    ∧ display_reading_value [("verse_reference", JVal.str "John 3:16"),
        ("verse_text_english", JVal.str "God is love")]
        [("reading_text_spanish", JVal.str "Dios es amor"),
         ("reading_text_english", JVal.str "God is love")]
        = dictGet [("reading_text_spanish", JVal.str "Dios es amor"),
         ("reading_text_english", JVal.str "God is love")]
          "reading_text_english" (.str "N/A") :=
  C10_reading_key_from_verse_record
    [("verse_reference", JVal.str "John 3:16"),
     ("verse_text_english", JVal.str "God is love")]
    [("reading_text_spanish", JVal.str "Dios es amor"),
     ("reading_text_english", JVal.str "God is love")]
    (by decide)

/-! ### C1 -/

/-- C1: for each of the four generation stages, if the raw response contains
a fence labeled ```json, the stage returns exactly the record decoded from
the text between the first ```json delimiter and the next ``` delimiter
(trimmed) — no field renamed, added or lost — whenever that text decodes.
The decoded region is written with the same split operations the code uses;
`split("```json")[1]` is the text after the first label up to the next
occurrence, and taking `split("```")[0]` of it cuts at the next ``` in the
raw response, which is exactly the labeled block. -/
theorem C1_labeled_fence_returns_decoded_record :
    (∀ (gpt : GptOracle) (loads : JsonLoads) (lang level response : String) (rec : JVal),
      gpt (verse_system_prompt lang level) (verse_user_message lang level) = response →
      pyIn "```json" response = true →
      loads (pyStrip ((pySplit "```"
          ((pySplit "```json" response).getD 1 "")).getD 0 "")) = some rec →
      agent_verse_retriever gpt loads lang level = rec)
    ∧ (∀ (gpt : GptOracle) (loads : JsonLoads) (lang level um response : String)
        (verse_data : JVal) (rec : JVal),
      content_user_message lang verse_data = some um →
      gpt (content_system_prompt lang level) um = response →
      pyIn "```json" response = true →
      loads (pyStrip ((pySplit "```"
          ((pySplit "```json" response).getD 1 "")).getD 0 "")) = some rec →
      agent_content_creator gpt loads lang verse_data level = some rec)
    ∧ (∀ (gpt : GptOracle) (loads : JsonLoads) (lang level um response : String)
        (verse_data reading_data : JVal) (rec : JVal),
      designer_user_message lang verse_data reading_data = some um →
      gpt (designer_system_prompt lang level) um = response →
      pyIn "```json" response = true →
      loads (pyStrip ((pySplit "```"
          ((pySplit "```json" response).getD 1 "")).getD 0 "")) = some rec →
      agent_lesson_designer gpt loads lang verse_data reading_data level = some rec)
    ∧ (∀ (gpt : GptOracle) (loads : JsonLoads) (lang um response : String)
        (lesson_data verse_data reading_data : JVal) (rec : JVal),
      answer_user_message lang lesson_data reading_data = some um →
      gpt (answer_system_prompt lang) um = response →
      pyIn "```json" response = true →
      loads (pyStrip ((pySplit "```"
          ((pySplit "```json" response).getD 1 "")).getD 0 "")) = some rec →
      agent_answer_key_generator gpt loads lang lesson_data verse_data reading_data
        = some rec) := by
  refine ⟨?_, ?_, ?_, ?_⟩
  · intro gpt loads lang level response rec hr h1 h2
    simp only [List.getD_eq_getElem?_getD] at h2
    simp [agent_verse_retriever, extract_json_str, hr, h1, h2]
  · intro gpt loads lang level um response verse_data rec hum hr h1 h2
    simp only [List.getD_eq_getElem?_getD] at h2
    simp [agent_content_creator, extract_json_str, hum, hr, h1, h2]
  · intro gpt loads lang level um response verse_data reading_data rec hum hr h1 h2
    simp only [List.getD_eq_getElem?_getD] at h2
    simp [agent_lesson_designer, extract_json_str, hum, hr, h1, h2]
  · intro gpt loads lang um response lesson_data verse_data reading_data rec hum hr h1 h2
    simp only [List.getD_eq_getElem?_getD] at h2
    simp [agent_answer_key_generator, extract_json_str, hum, hr, h1, h2]

/-- The single raw response used by the C1 witness: a labeled fence with a
decodable record inside. -/
def c1_resp : String :=
  "Sure!\n```json\n\x7b\"verse_reference\": \"John 3:16\"\x7d\n```\nDone."

/-- A concrete decode oracle agreeing with `json.loads` on the one string the
C1 witness extracts. -/
def c1_loads : JsonLoads := fun s =>
  if s == "\x7b\"verse_reference\": \"John 3:16\"\x7d" then
    some (.obj [("verse_reference", .str "John 3:16")])
  else none

/-- A small verse record for the witness calls of stages 2-4. -/
def c1_verse_record : JVal :=
  .obj [("verse_reference", .str "John 3:16"), ("verse_text_spanish", .str "Dios")]

/-- A small reading record for the witness calls of stages 3-4. -/
def c1_reading_record : JVal :=
  .obj [("reading_text_spanish", .str "Dios es amor"),
        ("key_vocabulary", .arr [.str "amor"])]

/-- C1 witness: all four stages, at a concrete labeled-fence response and a
concrete decoder, return exactly the decoded record. -/
theorem C1_labeled_fence_returns_decoded_record_witness :
    agent_verse_retriever (fun _ _ => c1_resp) c1_loads "Spanish" "B1"
      = .obj [("verse_reference", .str "John 3:16")]
    ∧ agent_content_creator (fun _ _ => c1_resp) c1_loads "Spanish" c1_verse_record "B1"
      = some (.obj [("verse_reference", .str "John 3:16")])
    ∧ agent_lesson_designer (fun _ _ => c1_resp) c1_loads "Spanish" c1_verse_record
        c1_reading_record "B1"
      = some (.obj [("verse_reference", .str "John 3:16")])
    ∧ agent_answer_key_generator (fun _ _ => c1_resp) c1_loads "Spanish" designer_fallback
        c1_verse_record c1_reading_record
      = some (.obj [("verse_reference", .str "John 3:16")]) :=
  ⟨C1_labeled_fence_returns_decoded_record.1 _ c1_loads "Spanish" "B1" c1_resp _
      rfl (by decide) rfl,
   C1_labeled_fence_returns_decoded_record.2.1 _ c1_loads "Spanish" "B1"
      ((content_user_message "Spanish" c1_verse_record).getD "") c1_resp _ _
      rfl rfl (by decide) rfl,
   C1_labeled_fence_returns_decoded_record.2.2.1 _ c1_loads "Spanish" "B1"
      ((designer_user_message "Spanish" c1_verse_record c1_reading_record).getD "") c1_resp _ _ _
      rfl rfl (by decide) rfl,
   C1_labeled_fence_returns_decoded_record.2.2.2 _ c1_loads "Spanish"
      ((answer_user_message "Spanish" designer_fallback c1_reading_record).getD "") c1_resp _ _ _ _
      rfl rfl (by decide) rfl⟩

/-! ### C2 -/

/-- C2: for each of the four generation stages, when the raw response has no
fence at all and its stripped text does not decode, the stage returns its
fallback record and never raises: the stage is a total function whose
`except` branch produces exactly the hard-coded record (for the verse and
reading stages that record embeds the prescribed fragments of the raw
response, as the source writes it). -/
theorem C2_unparsable_response_falls_back :
    (∀ (gpt : GptOracle) (loads : JsonLoads) (lang level response : String),
      gpt (verse_system_prompt lang level) (verse_user_message lang level) = response →
      pyIn "```" response = false →
      loads (pyStrip response) = none →
      agent_verse_retriever gpt loads lang level = verse_fallback lang response)
    ∧ (∀ (gpt : GptOracle) (loads : JsonLoads) (lang level um response : String)
        (verse_data : JVal),
      content_user_message lang verse_data = some um →
      gpt (content_system_prompt lang level) um = response →
      pyIn "```" response = false →
      loads (pyStrip response) = none →
      agent_content_creator gpt loads lang verse_data level
        = some (reading_fallback lang response))
    ∧ (∀ (gpt : GptOracle) (loads : JsonLoads) (lang level um response : String)
        (verse_data reading_data : JVal),
      designer_user_message lang verse_data reading_data = some um →
      gpt (designer_system_prompt lang level) um = response →
      pyIn "```" response = false →
      loads (pyStrip response) = none →
      agent_lesson_designer gpt loads lang verse_data reading_data level
        = some designer_fallback)
    ∧ (∀ (gpt : GptOracle) (loads : JsonLoads) (lang um response : String)
        (lesson_data verse_data reading_data : JVal),
      answer_user_message lang lesson_data reading_data = some um →
      gpt (answer_system_prompt lang) um = response →
      pyIn "```" response = false →
      loads (pyStrip response) = none →
      agent_answer_key_generator gpt loads lang lesson_data verse_data reading_data
        = some answer_fallback) := by
  refine ⟨?_, ?_, ?_, ?_⟩
  · intro gpt loads lang level response hr h1 h2
    have h0 := pyIn_json_false_of_ticks_false response h1
    simp [agent_verse_retriever, extract_json_str, hr, h0, h1, h2]
  · intro gpt loads lang level um response verse_data hum hr h1 h2
    have h0 := pyIn_json_false_of_ticks_false response h1
    simp [agent_content_creator, extract_json_str, hum, hr, h0, h1, h2]
  · intro gpt loads lang level um response verse_data reading_data hum hr h1 h2
    have h0 := pyIn_json_false_of_ticks_false response h1
    simp [agent_lesson_designer, extract_json_str, hum, hr, h0, h1, h2]
  · intro gpt loads lang um response lesson_data verse_data reading_data hum hr h1 h2
    have h0 := pyIn_json_false_of_ticks_false response h1
    simp [agent_answer_key_generator, extract_json_str, hum, hr, h0, h1, h2]

/-- The fence-free, undecodable raw response of the C2 witness. -/
def c2_resp : String := "I could not produce structured output today."

/-- C2 witness: all four stages, on a fence-free undecodable concrete
response under a decoder that always fails, return their fallback records. -/
theorem C2_unparsable_response_falls_back_witness :
    agent_verse_retriever (fun _ _ => c2_resp) (fun _ => none) "Spanish" "B1"
      = verse_fallback "Spanish" c2_resp
    ∧ agent_content_creator (fun _ _ => c2_resp) (fun _ => none) "Spanish" c1_verse_record "B1"
      = some (reading_fallback "Spanish" c2_resp)
    ∧ agent_lesson_designer (fun _ _ => c2_resp) (fun _ => none) "Spanish" c1_verse_record
        c1_reading_record "B1"
      = some designer_fallback
    ∧ agent_answer_key_generator (fun _ _ => c2_resp) (fun _ => none) "Spanish"
        designer_fallback c1_verse_record c1_reading_record
      = some answer_fallback :=
  ⟨C2_unparsable_response_falls_back.1 _ _ "Spanish" "B1" c2_resp rfl (by decide) rfl,
   C2_unparsable_response_falls_back.2.1 _ _ "Spanish" "B1"
     ((content_user_message "Spanish" c1_verse_record).getD "") c2_resp _
     rfl rfl (by decide) rfl,
   C2_unparsable_response_falls_back.2.2.1 _ _ "Spanish" "B1"
     ((designer_user_message "Spanish" c1_verse_record c1_reading_record).getD "") c2_resp _ _
     rfl rfl (by decide) rfl,
   C2_unparsable_response_falls_back.2.2.2 _ _ "Spanish"
     ((answer_user_message "Spanish" designer_fallback c1_reading_record).getD "") c2_resp _ _ _
     rfl rfl (by decide) rfl⟩

/-! ### C3 -/

/-- C3: for each of the four generation stages, a response with a generic
fence but no ```json label is extracted by the second strategy — the text
between the first pair of generic fences (written with the split operations
the code uses: `split("```")[1]` is that text, and the inner
`split("```")[0]` leaves it unchanged since a split part contains no
separator) — and when that text decodes, the stage returns the decoded
record.  The last conjunct states strategy selection itself. -/
theorem C3_generic_fence_second_strategy :
    (∀ (gpt : GptOracle) (loads : JsonLoads) (lang level response : String) (rec : JVal),
      gpt (verse_system_prompt lang level) (verse_user_message lang level) = response →
      pyIn "```json" response = false →
      pyIn "```" response = true →
      loads (pyStrip ((pySplit "```"
          ((pySplit "```" response).getD 1 "")).getD 0 "")) = some rec →
      agent_verse_retriever gpt loads lang level = rec)
    ∧ (∀ (gpt : GptOracle) (loads : JsonLoads) (lang level um response : String)
        (verse_data : JVal) (rec : JVal),
      content_user_message lang verse_data = some um →
      gpt (content_system_prompt lang level) um = response →
      pyIn "```json" response = false →
      pyIn "```" response = true →
      loads (pyStrip ((pySplit "```"
          ((pySplit "```" response).getD 1 "")).getD 0 "")) = some rec →
      agent_content_creator gpt loads lang verse_data level = some rec)
    ∧ (∀ (gpt : GptOracle) (loads : JsonLoads) (lang level um response : String)
        (verse_data reading_data : JVal) (rec : JVal),
      designer_user_message lang verse_data reading_data = some um →
      gpt (designer_system_prompt lang level) um = response →
      pyIn "```json" response = false →
      pyIn "```" response = true →
      loads (pyStrip ((pySplit "```"
          ((pySplit "```" response).getD 1 "")).getD 0 "")) = some rec →
      agent_lesson_designer gpt loads lang verse_data reading_data level = some rec)
    ∧ (∀ (gpt : GptOracle) (loads : JsonLoads) (lang um response : String)
        (lesson_data verse_data reading_data : JVal) (rec : JVal),
      answer_user_message lang lesson_data reading_data = some um →
      gpt (answer_system_prompt lang) um = response →
      pyIn "```json" response = false →
      pyIn "```" response = true →
      loads (pyStrip ((pySplit "```"
          ((pySplit "```" response).getD 1 "")).getD 0 "")) = some rec →
      agent_answer_key_generator gpt loads lang lesson_data verse_data reading_data
        = some rec)
    ∧ (∀ response : String,
      pyIn "```json" response = false →
      pyIn "```" response = true →
      extract_json_str response
        = pyStrip ((pySplit "```" ((pySplit "```" response).getD 1 "")).getD 0 "")) := by
  refine ⟨?_, ?_, ?_, ?_, ?_⟩
  · intro gpt loads lang level response rec hr h0 h1 h2
    simp only [List.getD_eq_getElem?_getD] at h2
    simp [agent_verse_retriever, extract_json_str, hr, h0, h1, h2]
  · intro gpt loads lang level um response verse_data rec hum hr h0 h1 h2
    simp only [List.getD_eq_getElem?_getD] at h2
    simp [agent_content_creator, extract_json_str, hum, hr, h0, h1, h2]
  · intro gpt loads lang level um response verse_data reading_data rec hum hr h0 h1 h2
    simp only [List.getD_eq_getElem?_getD] at h2
    simp [agent_lesson_designer, extract_json_str, hum, hr, h0, h1, h2]
  · intro gpt loads lang um response lesson_data verse_data reading_data rec hum hr h0 h1 h2
    simp only [List.getD_eq_getElem?_getD] at h2
    simp [agent_answer_key_generator, extract_json_str, hum, hr, h0, h1, h2]
  · intro response h0 h1
    simp [extract_json_str, h0, h1]

/-- The generic-fence raw response of the C3 witness. -/
def c3_resp : String :=
  "Here you go:\n```\n\x7b\"verse_reference\": \"John 3:16\"\x7d\n```\nend"

/-- C3 witness: all four stages, at a concrete generic-fence response whose
fenced text decodes, return the decoded record, and extraction takes the
second strategy on that response. -/
theorem C3_generic_fence_second_strategy_witness :
    agent_verse_retriever (fun _ _ => c3_resp) c1_loads "Spanish" "B1"
      = .obj [("verse_reference", .str "John 3:16")]
    ∧ agent_content_creator (fun _ _ => c3_resp) c1_loads "Spanish" c1_verse_record "B1"
      = some (.obj [("verse_reference", .str "John 3:16")])
    ∧ agent_lesson_designer (fun _ _ => c3_resp) c1_loads "Spanish" c1_verse_record
        c1_reading_record "B1"
      = some (.obj [("verse_reference", .str "John 3:16")])
    ∧ agent_answer_key_generator (fun _ _ => c3_resp) c1_loads "Spanish" designer_fallback
        c1_verse_record c1_reading_record
      = some (.obj [("verse_reference", .str "John 3:16")])
    ∧ extract_json_str c3_resp
      = pyStrip ((pySplit "```" ((pySplit "```" c3_resp).getD 1 "")).getD 0 "") :=
  ⟨C3_generic_fence_second_strategy.1 _ c1_loads "Spanish" "B1" c3_resp _
     rfl (by decide) (by decide) rfl,
   C3_generic_fence_second_strategy.2.1 _ c1_loads "Spanish" "B1"
     ((content_user_message "Spanish" c1_verse_record).getD "") c3_resp _ _
     rfl rfl (by decide) (by decide) rfl,
   C3_generic_fence_second_strategy.2.2.1 _ c1_loads "Spanish" "B1"
     ((designer_user_message "Spanish" c1_verse_record c1_reading_record).getD "") c3_resp _ _ _
     rfl rfl (by decide) (by decide) rfl,
   C3_generic_fence_second_strategy.2.2.2.1 _ c1_loads "Spanish"
     ((answer_user_message "Spanish" designer_fallback c1_reading_record).getD "") c3_resp _ _ _ _
     rfl rfl (by decide) (by decide) rfl,
   C3_generic_fence_second_strategy.2.2.2.2 c3_resp (by decide) (by decide)⟩

/-! ### C5 -/

/-- C5: on a lesson bundle whose only field is the level, the renderer raises
no exception (returns a document rather than `none`), produces a non-empty
element list containing the literal level value in the header and the "N/A"
placeholders for the verse reference, verse text and reading sections
(missing lookups default to "N/A" or empty), at the timestamped path in the
temporary directory. -/
theorem C5_render_level_only_bundle (lang temp_dir date_str now_stamp level : String) :
    ∃ elems : List PdfElem,
      generate_pdf lang temp_dir date_str now_stamp [("level", JVal.str level)]
        = some (temp_dir ++ "/" ++ ("bible_lesson_" ++ now_stamp ++ ".pdf"), elems)
      ∧ elems ≠ []
      ∧ PdfElem.para ("Date: " ++ date_str ++ "<br/>Level: " ++ level) "BodyText" ∈ elems
      ∧ PdfElem.para "<b>N/A</b>" "BodyText" ∈ elems
      ∧ PdfElem.para "<i>N/A</i>" "BodyText" ∈ elems
      ∧ PdfElem.para "N/A" "BodyText" ∈ elems := by
  refine ⟨_, rfl, ?_, ?_, ?_, ?_⟩ <;> simp [dictGet, pyStr, jTruthy, add_exercises, add_answers]

/-! ### C8 -/

/-- C8: with no synthesis credential (absent or empty), the audio stage
returns "no audio" and issues no network request; and in the full pipeline
the outcome is normal and non-fatal — whenever the run completes, its audio
path is absent, its synthesis-request trace is empty, and the bundle stores
`None` under "audio_path". -/
theorem C8_no_credential_no_audio (post : TtsPost) (elevenlabs_key : Option String)
    (gpt : GptOracle) (loads : JsonLoads)
    (lang temp_dir date_str now_stamp level : String) (reading_text : JVal)
    (hk : pyTruthyOptStr elevenlabs_key = false) :
    agent_tts_generator post elevenlabs_key lang temp_dir now_stamp reading_text = (none, [])
    ∧ (run_full_lesson_generation gpt loads post elevenlabs_key lang temp_dir date_str
        now_stamp level).map RunResult.audio_path
      = (run_full_lesson_generation gpt loads post elevenlabs_key lang temp_dir date_str
        now_stamp level).map (fun _ => none)
    ∧ (run_full_lesson_generation gpt loads post elevenlabs_key lang temp_dir date_str
        now_stamp level).map RunResult.tts_requests
      = (run_full_lesson_generation gpt loads post elevenlabs_key lang temp_dir date_str
        now_stamp level).map (fun _ => [])
    ∧ (run_full_lesson_generation gpt loads post elevenlabs_key lang temp_dir date_str
        now_stamp level).map
          (fun r => dictGet r.lesson_content "audio_path" JVal.null)
      = (run_full_lesson_generation gpt loads post elevenlabs_key lang temp_dir date_str
        now_stamp level).map (fun _ => JVal.null) := by
  have core : ∀ res, run_full_lesson_generation gpt loads post elevenlabs_key lang temp_dir
      date_str now_stamp level = some res →
      res.audio_path = none ∧ res.tts_requests = ([] : List TtsRequest) ∧
      dictGet res.lesson_content "audio_path" JVal.null = JVal.null := by
    intro res hres
    unfold run_full_lesson_generation at hres
    rw [hk] at hres
    simp only [Bool.false_eq_true, if_false, Option.bind_eq_bind] at hres
    rcases Option.bind_eq_some.mp hres with ⟨rd, _h2, hres⟩
    rcases Option.bind_eq_some.mp hres with ⟨ld, _h3, hres⟩
    rcases Option.bind_eq_some.mp hres with ⟨ans, _h4, hres⟩
    rcases Option.bind_eq_some.mp hres with ⟨astep, ha, hres⟩
    rcases Option.bind_eq_some.mp hres with ⟨pdf, _h5, hres⟩
    have ha2 : astep = ((none : Option String), ([] : List TtsRequest)) :=
      (Option.some.inj ha).symm
    subst ha2
    have hres2 : res = ⟨_, pdf.1, none, []⟩ := (Option.some.inj hres).symm
    subst hres2
    refine ⟨rfl, rfl, ?_⟩
    simp [dictGet]
  refine ⟨?_, ?_, ?_, ?_⟩
  · simp [agent_tts_generator, hk]
  · exact optMapCongr _ _ _ (fun res h => (core res h).1)
  · exact optMapCongr _ _ _ (fun res h => (core res h).2.1)
  · exact optMapCongr _ _ _ (fun res h => (core res h).2.2)

/-- C8 witness: a concrete run with no credential — the stage returns no
audio with an empty request trace, and the pipeline-level facts hold at the
same concrete inputs. -/
theorem C8_no_credential_no_audio_witness :
    agent_tts_generator (fun _ => .exn "down") none "Spanish" "/tmp" "20250101_000000"
        (.str "hola") = (none, [])
    ∧ (run_full_lesson_generation (fun _ _ => c2_resp) (fun _ => none) (fun _ => .exn "down")
        none "Spanish" "/tmp" "January 01, 2025" "20250101_000000" "B1").map
          RunResult.audio_path
      = (run_full_lesson_generation (fun _ _ => c2_resp) (fun _ => none) (fun _ => .exn "down")
        none "Spanish" "/tmp" "January 01, 2025" "20250101_000000" "B1").map (fun _ => none)
    ∧ (run_full_lesson_generation (fun _ _ => c2_resp) (fun _ => none) (fun _ => .exn "down")
        none "Spanish" "/tmp" "January 01, 2025" "20250101_000000" "B1").map
          RunResult.tts_requests
      = (run_full_lesson_generation (fun _ _ => c2_resp) (fun _ => none) (fun _ => .exn "down")
        none "Spanish" "/tmp" "January 01, 2025" "20250101_000000" "B1").map (fun _ => [])
    ∧ (run_full_lesson_generation (fun _ _ => c2_resp) (fun _ => none) (fun _ => .exn "down")
        none "Spanish" "/tmp" "January 01, 2025" "20250101_000000" "B1").map
          (fun r => dictGet r.lesson_content "audio_path" JVal.null)
      = (run_full_lesson_generation (fun _ _ => c2_resp) (fun _ => none) (fun _ => .exn "down")
        none "Spanish" "/tmp" "January 01, 2025" "20250101_000000" "B1").map
          (fun _ => JVal.null) :=
  C8_no_credential_no_audio (fun _ => .exn "down") none (fun _ _ => c2_resp) (fun _ => none)
    "Spanish" "/tmp" "January 01, 2025" "20250101_000000" "B1" (.str "hola") rfl

/-! ### C7 -/

/-- C7: when the exercise-stage call returns text whose extraction does not
decode, the resulting exercise set is exactly the stage's hard-coded
fallback record, and the pipeline does not abort there: whenever the run
completes, the bundle stores the fallback under "lesson_data" and stores as
"answers" precisely the output of the answer stage invoked with that
fallback as its exercise input. -/
theorem C7_exercise_fallback_reaches_answer_stage
    (gpt : GptOracle) (loads : JsonLoads) (post : TtsPost) (elevenlabs_key : Option String)
    (lang temp_dir date_str now_stamp level um : String) (vdd rdd : PyDict)
    (h1 : agent_verse_retriever gpt loads lang level = .obj vdd)
    (h2 : agent_content_creator gpt loads lang (.obj vdd) level = some (.obj rdd))
    (hum : designer_user_message lang (.obj vdd) (.obj rdd) = some um)
    (h3 : loads (extract_json_str (gpt (designer_system_prompt lang level) um)) = none) :
    agent_lesson_designer gpt loads lang (.obj vdd) (.obj rdd) level = some designer_fallback
    ∧ (run_full_lesson_generation gpt loads post elevenlabs_key lang temp_dir date_str
        now_stamp level).map (fun r => dictGet r.lesson_content "lesson_data" JVal.null)
      = (run_full_lesson_generation gpt loads post elevenlabs_key lang temp_dir date_str
        now_stamp level).map (fun _ => designer_fallback)
    ∧ (run_full_lesson_generation gpt loads post elevenlabs_key lang temp_dir date_str
        now_stamp level).map (fun r => some (dictGet r.lesson_content "answers" JVal.null))
      = (run_full_lesson_generation gpt loads post elevenlabs_key lang temp_dir date_str
        now_stamp level).map (fun _ =>
          agent_answer_key_generator gpt loads lang designer_fallback (.obj vdd) (.obj rdd)) := by
  have hdes : agent_lesson_designer gpt loads lang (.obj vdd) (.obj rdd) level
      = some designer_fallback := by
    simp [agent_lesson_designer, hum, h3]
  have core : ∀ res, run_full_lesson_generation gpt loads post elevenlabs_key lang temp_dir
      date_str now_stamp level = some res →
      dictGet res.lesson_content "lesson_data" JVal.null = designer_fallback ∧
      some (dictGet res.lesson_content "answers" JVal.null)
        = agent_answer_key_generator gpt loads lang designer_fallback (.obj vdd) (.obj rdd) := by
    intro res hres
    unfold run_full_lesson_generation at hres
    rw [h1] at hres
    simp only [Option.bind_eq_bind] at hres
    rcases Option.bind_eq_some.mp hres with ⟨rd, hrd, hres⟩
    have hrd2 : rd = .obj rdd := by
      rw [h2] at hrd
      exact (Option.some.inj hrd).symm
    subst hrd2
    rcases Option.bind_eq_some.mp hres with ⟨ld, hld, hres⟩
    have hld2 : ld = designer_fallback := by
      rw [hdes] at hld
      exact (Option.some.inj hld).symm
    subst hld2
    rcases Option.bind_eq_some.mp hres with ⟨ans, hans, hres⟩
    have main : ∀ (y : Option String × List TtsRequest) (pdf : String × List PdfElem),
        res = ⟨[("level", JVal.str level), ("verse_data", JVal.obj vdd),
          ("reading_data", JVal.obj rdd), ("lesson_data", designer_fallback),
          ("answers", ans),
          ("audio_path", match y.1 with | some p => JVal.str p | none => JVal.null)],
          pdf.1, y.1, y.2⟩ →
        dictGet res.lesson_content "lesson_data" JVal.null = designer_fallback ∧
        some (dictGet res.lesson_content "answers" JVal.null)
          = agent_answer_key_generator gpt loads lang designer_fallback (.obj vdd)
              (.obj rdd) := by
      intro y pdf hr
      subst hr
      constructor
      · simp [dictGet]
      · simp only [dictGet]
        simp only [show (("level" : String) == "answers") = false from by decide,
          show (("verse_data" : String) == "answers") = false from by decide,
          show (("reading_data" : String) == "answers") = false from by decide,
          show (("lesson_data" : String) == "answers") = false from by decide,
          show (("answers" : String) == "answers") = true from by decide,
          show (("audio_path" : String) == "answers") = false from by decide,
          if_true, if_false]
        exact hans.symm
    split at hres
    · rcases Option.bind_eq_some.mp hres with ⟨rt, _hrt, hres⟩
      split at hres
      · simp only [Option.pure_def, Option.some_bind] at hres
        rcases Option.bind_eq_some.mp hres with ⟨pdf, _hp, hres⟩
        exact main (agent_tts_generator post elevenlabs_key lang temp_dir now_stamp rt) pdf
          (Option.some.inj hres).symm
      · simp only [Option.pure_def, Option.some_bind] at hres
        rcases Option.bind_eq_some.mp hres with ⟨pdf, _hp, hres⟩
        exact main ((none : Option String), ([] : List TtsRequest)) pdf
          (Option.some.inj hres).symm
    · simp only [Option.pure_def, Option.some_bind] at hres
      rcases Option.bind_eq_some.mp hres with ⟨pdf, _hp, hres⟩
      exact main ((none : Option String), ([] : List TtsRequest)) pdf
        (Option.some.inj hres).symm
  exact ⟨hdes,
    optMapCongr _ _ _ (fun res h => (core res h).1),
    optMapCongr _ _ _ (fun res h => (core res h).2)⟩

/-- The verse record of the C7 witness run (stage 1 falls back). -/
def c7_vdd : PyDict := verse_fb_fields "Spanish" c2_resp

/-- The reading record of the C7 witness run (stage 2 falls back). -/
def c7_rdd : PyDict := reading_fb_fields "Spanish" c2_resp

/-- C7 witness: a concrete run whose exercise-stage response is unparsable —
the exercise set equals the hard-coded fallback and the stored answer set is
the answer stage's output on that fallback. -/
theorem C7_exercise_fallback_reaches_answer_stage_witness :
    agent_lesson_designer (fun _ _ => c2_resp) (fun _ => none) "Spanish" (.obj c7_vdd)
        (.obj c7_rdd) "B1" = some designer_fallback
    ∧ (run_full_lesson_generation (fun _ _ => c2_resp) (fun _ => none) (fun _ => .exn "down")
        none "Spanish" "/tmp" "January 01, 2025" "20250101_000000" "B1").map
          (fun r => dictGet r.lesson_content "lesson_data" JVal.null)
      = (run_full_lesson_generation (fun _ _ => c2_resp) (fun _ => none) (fun _ => .exn "down")
        none "Spanish" "/tmp" "January 01, 2025" "20250101_000000" "B1").map
          (fun _ => designer_fallback)
    ∧ (run_full_lesson_generation (fun _ _ => c2_resp) (fun _ => none) (fun _ => .exn "down")
        none "Spanish" "/tmp" "January 01, 2025" "20250101_000000" "B1").map
          (fun r => some (dictGet r.lesson_content "answers" JVal.null))
      = (run_full_lesson_generation (fun _ _ => c2_resp) (fun _ => none) (fun _ => .exn "down")
        none "Spanish" "/tmp" "January 01, 2025" "20250101_000000" "B1").map
          (fun _ => agent_answer_key_generator (fun _ _ => c2_resp) (fun _ => none) "Spanish"
            designer_fallback (.obj c7_vdd) (.obj c7_rdd)) :=
  C7_exercise_fallback_reaches_answer_stage (fun _ _ => c2_resp) (fun _ => none)
    (fun _ => .exn "down") none "Spanish" "/tmp" "January 01, 2025" "20250101_000000" "B1"
    ((designer_user_message "Spanish" (.obj c7_vdd) (.obj c7_rdd)).getD "")
    c7_vdd c7_rdd rfl rfl rfl rfl

/-! ### C4 -/

/-- A decode oracle agreeing with `json.loads` on the one relevant string of
the C4 counterexample: `json.loads("\x7b\x7d")` is the empty record. -/
def c4_loads : JsonLoads := fun s => if s == "\x7b\x7d" then some (.obj []) else none

/-- C4 counterexample: a raw response consisting of the valid JSON text for
an empty record decodes successfully, so the verse stage returns the empty
record as-is — an output that does not contain "verse_reference", a key the
reading stage reads.  The universally quantified claim (every output, for
every raw response, contains every key a later stage reads) is false. -/
theorem C4_counterexample :
    ¬ ("verse_reference" ∈ dictKeysOf
        (agent_verse_retriever (fun _ _ => "\x7b\x7d") c4_loads "Spanish" "B1")) := by decide

/-- The reading-fallback lookup of the target-language reading key, with the
one undecidable key collision (`lang.lower() = "english"`) kept as a
conditional. -/
theorem reading_fb_get_rt (lang r : String) (d : JVal) :
    dictGet (reading_fb_fields lang r) ("reading_text_" ++ pyLower lang) d
      = if ("reading_text_english" == "reading_text_" ++ pyLower lang)
        then .str "Reading comprehension text" else .str (pyTakeChars 300 r) := by
  simp only [reading_fb_fields, dictGet, beq_self_eq_true, if_true,
    beq_append_right_false "key_vocabulary" "reading_text_" (pyLower lang) (by decide),
    Bool.false_eq_true, if_false]

/-- Slicing a conditional between two strings. -/
theorem pySliceTake_ite (c : Prop) [Decidable c] (a b : String) (n : Nat) :
    pySliceTake (if c then JVal.str a else JVal.str b) n
      = some (if c then JVal.str (pyTakeChars n a) else JVal.str (pyTakeChars n b)) := by
  by_cases h : c <;> simp [h, pySliceTake]

/-- The exercise-stage user message is constructible whenever the verse
record is a record and the reading record is the reading fallback. -/
theorem designer_user_message_fb (lang : String) (vd : PyDict) (r2 : String) :
    ∃ um, designer_user_message lang (.obj vd) (reading_fallback lang r2) = some um := by
  unfold designer_user_message
  simp only [jGet, reading_fallback, Option.some_bind, Option.bind_eq_bind]
  rw [reading_fb_get_rt, pySliceTake_ite]
  exact ⟨_, rfl⟩

/-- The answer-stage user message likewise. -/
theorem answer_user_message_fb (lang : String) (ld : JVal) (r2 : String) :
    ∃ um, answer_user_message lang ld (reading_fallback lang r2) = some um := by
  unfold answer_user_message
  simp only [jGet, reading_fallback, Option.some_bind, Option.bind_eq_bind]
  rw [reading_fb_get_rt, pySliceTake_ite]
  exact ⟨_, rfl⟩

/-- With a decoder that always fails, the reading stage on the verse
fallback returns the reading fallback on its own raw response. -/
theorem agent_content_creator_fb (gpt : GptOracle) (lang level r1 : String) :
    agent_content_creator gpt (fun _ => none) lang (verse_fallback lang r1) level
      = some (reading_fallback lang (gpt (content_system_prompt lang level)
          ("Create content based on:\nVerse: "
            ++ pyStr (dictGet (verse_fb_fields lang r1) "verse_reference" (.str "N/A"))
            ++ "\nText: "
            ++ pyStr (dictGet (verse_fb_fields lang r1)
                ("verse_text_" ++ pyLower lang) (.str ""))))) := rfl

/-- With a decoder that always fails, the exercise stage on fallback inputs
returns its hard-coded fallback. -/
theorem agent_lesson_designer_fb (gpt : GptOracle) (lang level r1 r2 : String) :
    agent_lesson_designer gpt (fun _ => none) lang (verse_fallback lang r1)
      (reading_fallback lang r2) level = some designer_fallback := by
  obtain ⟨um, hum⟩ := designer_user_message_fb lang (verse_fb_fields lang r1) r2
  have hum2 : designer_user_message lang (verse_fallback lang r1) (reading_fallback lang r2)
      = some um := hum
  simp [agent_lesson_designer, hum2]

/-- With a decoder that always fails, the answer stage on a fallback reading
record returns its hard-coded fallback. -/
theorem agent_answer_key_generator_fb (gpt : GptOracle) (lang r2 : String)
    (lesson_data verse_data : JVal) :
    agent_answer_key_generator gpt (fun _ => none) lang lesson_data verse_data
      (reading_fallback lang r2) = some answer_fallback := by
  obtain ⟨um, hum⟩ := answer_user_message_fb lang lesson_data r2
  simp [agent_answer_key_generator, hum]

/-- On a bundle whose stage fields are the fallback records, the renderer
produces a document (all dict views succeed and the vocabulary join is over
strings). -/
theorem generate_pdf_fb_isSome (lang temp_dir date_str now_stamp level r1 r2 : String)
    (x : JVal) :
    (generate_pdf lang temp_dir date_str now_stamp
      [("level", .str level), ("verse_data", verse_fallback lang r1),
       ("reading_data", reading_fallback lang r2), ("lesson_data", designer_fallback),
       ("answers", answer_fallback), ("audio_path", x)]).isSome = true := by
  simp [generate_pdf, dictGet, jAsDict, verse_fallback, reading_fallback,
    reading_fb_fields, verse_fb_fields, designer_fallback, answer_fallback,
    jTruthy, pyJoinStrs, joinWith, List.mapM, List.mapM.loop,
    beq_append_left_false "key_vocabulary" "reading_text_" (pyLower lang) (by decide),
    beq_append_right_false "key_vocabulary" "reading_text_" (pyLower lang) (by decide),
    beq_append_left_false "verse_reference" "meditation_" (pyLower lang) (by decide),
    beq_append_left_false "verse_reference" "verse_text_" (pyLower lang) (by decide),
    beq_append_right_false "meditation_english" "verse_text_" (pyLower lang) (by decide),
    append_beq_append_false "meditation_" "verse_text_" (pyLower lang) (pyLower lang)
      (by decide) (by decide)]

/-- `reading_data.get` on the reading fallback, as one `some` step. -/
theorem jGet_reading_fb (lang r k : String) (d : JVal) :
    jGet (reading_fallback lang r) k d = some (dictGet (reading_fb_fields lang r) k d) := rfl

/-- Binding a computed value through `pure` preserves definedness. -/
theorem bind_pure_isSome {α β : Type} (o : Option α) (f : α → β)
    (h : o.isSome = true) : (o >>= (fun a => pure (f a))).isSome = true := by
  rcases Option.isSome_iff_exists.mp h with ⟨a, ha⟩
  simp [ha]

/-- C4 (amended): each stage's fallback record contains every key a later
stage reads (the verse reference and target-language verse text read by the
reading stage; the target-language reading text and vocabulary read by the
exercise, answer and audio stages; all five exercise lists read by the
answer stage and the renderer), and consequently a run in which every decode
fails completes end-to-end without aborting.  (A successfully decoded record
is returned as-is and may lack those keys — see the counterexample — but
downstream reads use default-valued lookups.) -/
theorem C4_fallback_keys_cover_downstream_reads :
    (∀ lang response : String,
      "verse_reference" ∈ dictKeysOf (verse_fallback lang response)
      ∧ ("verse_text_" ++ pyLower lang) ∈ dictKeysOf (verse_fallback lang response)
      ∧ ("reading_text_" ++ pyLower lang) ∈ dictKeysOf (reading_fallback lang response)
      ∧ "key_vocabulary" ∈ dictKeysOf (reading_fallback lang response)
      ∧ "reading_exercises" ∈ dictKeysOf designer_fallback
      ∧ "writing_exercises" ∈ dictKeysOf designer_fallback
      ∧ "listening_exercises" ∈ dictKeysOf designer_fallback
      ∧ "speaking_exercises" ∈ dictKeysOf designer_fallback
      ∧ "filling_exercises" ∈ dictKeysOf designer_fallback)
    ∧ (∀ (gpt : GptOracle) (post : TtsPost) (elevenlabs_key : Option String)
        (lang temp_dir date_str now_stamp level : String),
      (run_full_lesson_generation gpt (fun _ => none) post elevenlabs_key lang temp_dir
        date_str now_stamp level).isSome = true) := by
  constructor
  · intro lang response
    refine ⟨?_, ?_, ?_, ?_, ?_, ?_, ?_, ?_, ?_⟩ <;>
      simp [verse_fallback, verse_fb_fields, reading_fallback, reading_fb_fields,
        designer_fallback, dictKeysOf, jFields, dictKeys]
  · intro gpt post elevenlabs_key lang temp_dir date_str now_stamp level
    have hA : agent_verse_retriever gpt (fun _ => none) lang level
        = verse_fallback lang (gpt (verse_system_prompt lang level)
            (verse_user_message lang level)) := rfl
    unfold run_full_lesson_generation
    rw [hA]
    simp only [Option.bind_eq_bind]
    rw [agent_content_creator_fb]
    simp only [Option.some_bind]
    rw [agent_lesson_designer_fb]
    simp only [Option.some_bind]
    rw [agent_answer_key_generator_fb]
    simp only [Option.some_bind]
    split
    · simp only [jGet_reading_fb, Option.some_bind]
      split
      · simp only [Option.pure_def, Option.some_bind]
        exact bind_pure_isSome _ _ (generate_pdf_fb_isSome _ _ _ _ _ _ _ _)
      · simp only [Option.pure_def, Option.some_bind]
        exact bind_pure_isSome _ _ (generate_pdf_fb_isSome _ _ _ _ _ _ _ _)
    · simp only [Option.pure_def, Option.some_bind]
      exact bind_pure_isSome _ _ (generate_pdf_fb_isSome _ _ _ _ _ _ _ _)
